import Mathlib

/-!
Verification of the Schema-Constrained Query Gateway in
`src/server/mcp_server.py` (news-impact MCP server).

The embedding models Python/JSON values with an inductive `Value` type and
translates the helper functions of the source file:
`_validate_and_normalize_args`, `_fetch_from_mongo` (the query it builds),
`_normalize_docs`, `_to_iso`, `_tool_descriptor_meta` and the request
handler `_call_tool_request`.  The document store itself is an external
collaborator and is modelled as a function from the built store query to a
result (documents or a PyMongo error).
-/

namespace NewsMcp

/-- A Python/JSON-ish value as it travels through the gateway.  `vdatetime`
models a Python `datetime` instance carrying the string its `isoformat()`
returns. -/
inductive Value where
  | vnull : Value
  | vbool : Bool → Value
  | vint : Int → Value
  | vfloat : Rat → Value
  | vstr : String → Value
  | vdatetime : String → Value
  | vlist : List Value → Value
  | vobj : List (String × Value) → Value

mutual

/-- Decidable equality on `Value` (the deriving handler does not support
this nested inductive, so it is written out). -/
def decEqValue : (a b : Value) → Decidable (a = b)
  | .vnull, .vnull => isTrue rfl
  | .vbool a, .vbool b =>
      match decEq a b with
      | isTrue h => isTrue (h ▸ rfl)
      | isFalse h => isFalse (fun e => h (Value.vbool.inj e))
  | .vint a, .vint b =>
      match decEq a b with
      | isTrue h => isTrue (h ▸ rfl)
      | isFalse h => isFalse (fun e => h (Value.vint.inj e))
  | .vfloat a, .vfloat b =>
      match decEq a b with
      | isTrue h => isTrue (h ▸ rfl)
      | isFalse h => isFalse (fun e => h (Value.vfloat.inj e))
  | .vstr a, .vstr b =>
      match decEq a b with
      | isTrue h => isTrue (h ▸ rfl)
      | isFalse h => isFalse (fun e => h (Value.vstr.inj e))
  | .vdatetime a, .vdatetime b =>
      match decEq a b with
      | isTrue h => isTrue (h ▸ rfl)
      | isFalse h => isFalse (fun e => h (Value.vdatetime.inj e))
  | .vlist xs, .vlist ys =>
      match decEqValueList xs ys with
      | isTrue h => isTrue (h ▸ rfl)
      | isFalse h => isFalse (fun e => h (Value.vlist.inj e))
  | .vobj xs, .vobj ys =>
      match decEqValueFields xs ys with
      | isTrue h => isTrue (h ▸ rfl)
      | isFalse h => isFalse (fun e => h (Value.vobj.inj e))
  | .vnull, .vbool _ => isFalse (fun h => Value.noConfusion h)
  | .vnull, .vint _ => isFalse (fun h => Value.noConfusion h)
  | .vnull, .vfloat _ => isFalse (fun h => Value.noConfusion h)
  | .vnull, .vstr _ => isFalse (fun h => Value.noConfusion h)
  | .vnull, .vdatetime _ => isFalse (fun h => Value.noConfusion h)
  | .vnull, .vlist _ => isFalse (fun h => Value.noConfusion h)
  | .vnull, .vobj _ => isFalse (fun h => Value.noConfusion h)
  | .vbool _, .vnull => isFalse (fun h => Value.noConfusion h)
  | .vbool _, .vint _ => isFalse (fun h => Value.noConfusion h)
  | .vbool _, .vfloat _ => isFalse (fun h => Value.noConfusion h)
  | .vbool _, .vstr _ => isFalse (fun h => Value.noConfusion h)
  | .vbool _, .vdatetime _ => isFalse (fun h => Value.noConfusion h)
  | .vbool _, .vlist _ => isFalse (fun h => Value.noConfusion h)
  | .vbool _, .vobj _ => isFalse (fun h => Value.noConfusion h)
  | .vint _, .vnull => isFalse (fun h => Value.noConfusion h)
  | .vint _, .vbool _ => isFalse (fun h => Value.noConfusion h)
  | .vint _, .vfloat _ => isFalse (fun h => Value.noConfusion h)
  | .vint _, .vstr _ => isFalse (fun h => Value.noConfusion h)
  | .vint _, .vdatetime _ => isFalse (fun h => Value.noConfusion h)
  | .vint _, .vlist _ => isFalse (fun h => Value.noConfusion h)
  | .vint _, .vobj _ => isFalse (fun h => Value.noConfusion h)
  | .vfloat _, .vnull => isFalse (fun h => Value.noConfusion h)
  | .vfloat _, .vbool _ => isFalse (fun h => Value.noConfusion h)
  | .vfloat _, .vint _ => isFalse (fun h => Value.noConfusion h)
  | .vfloat _, .vstr _ => isFalse (fun h => Value.noConfusion h)
  | .vfloat _, .vdatetime _ => isFalse (fun h => Value.noConfusion h)
  | .vfloat _, .vlist _ => isFalse (fun h => Value.noConfusion h)
  | .vfloat _, .vobj _ => isFalse (fun h => Value.noConfusion h)
  | .vstr _, .vnull => isFalse (fun h => Value.noConfusion h)
  | .vstr _, .vbool _ => isFalse (fun h => Value.noConfusion h)
  | .vstr _, .vint _ => isFalse (fun h => Value.noConfusion h)
  | .vstr _, .vfloat _ => isFalse (fun h => Value.noConfusion h)
  | .vstr _, .vdatetime _ => isFalse (fun h => Value.noConfusion h)
  | .vstr _, .vlist _ => isFalse (fun h => Value.noConfusion h)
  | .vstr _, .vobj _ => isFalse (fun h => Value.noConfusion h)
  | .vdatetime _, .vnull => isFalse (fun h => Value.noConfusion h)
  | .vdatetime _, .vbool _ => isFalse (fun h => Value.noConfusion h)
  | .vdatetime _, .vint _ => isFalse (fun h => Value.noConfusion h)
  | .vdatetime _, .vfloat _ => isFalse (fun h => Value.noConfusion h)
  | .vdatetime _, .vstr _ => isFalse (fun h => Value.noConfusion h)
  | .vdatetime _, .vlist _ => isFalse (fun h => Value.noConfusion h)
  | .vdatetime _, .vobj _ => isFalse (fun h => Value.noConfusion h)
  | .vlist _, .vnull => isFalse (fun h => Value.noConfusion h)
  | .vlist _, .vbool _ => isFalse (fun h => Value.noConfusion h)
  | .vlist _, .vint _ => isFalse (fun h => Value.noConfusion h)
  | .vlist _, .vfloat _ => isFalse (fun h => Value.noConfusion h)
  | .vlist _, .vstr _ => isFalse (fun h => Value.noConfusion h)
  | .vlist _, .vdatetime _ => isFalse (fun h => Value.noConfusion h)
  | .vlist _, .vobj _ => isFalse (fun h => Value.noConfusion h)
  | .vobj _, .vnull => isFalse (fun h => Value.noConfusion h)
  | .vobj _, .vbool _ => isFalse (fun h => Value.noConfusion h)
  | .vobj _, .vint _ => isFalse (fun h => Value.noConfusion h)
  | .vobj _, .vfloat _ => isFalse (fun h => Value.noConfusion h)
  | .vobj _, .vstr _ => isFalse (fun h => Value.noConfusion h)
  | .vobj _, .vdatetime _ => isFalse (fun h => Value.noConfusion h)
  | .vobj _, .vlist _ => isFalse (fun h => Value.noConfusion h)

def decEqValueList : (xs ys : List Value) → Decidable (xs = ys)
  | [], [] => isTrue rfl
  | [], _ :: _ => isFalse (fun h => List.noConfusion h)
  | _ :: _, [] => isFalse (fun h => List.noConfusion h)
  | x :: xs, y :: ys =>
      match decEqValue x y with
      | isFalse h => isFalse (fun e => h (List.cons.inj e).1)
      | isTrue h1 =>
        match decEqValueList xs ys with
        | isTrue h2 => isTrue (by rw [h1, h2])
        | isFalse h2 => isFalse (fun e => h2 (List.cons.inj e).2)

def decEqValueFields : (xs ys : List (String × Value)) → Decidable (xs = ys)
  | [], [] => isTrue rfl
  | [], _ :: _ => isFalse (fun h => List.noConfusion h)
  | _ :: _, [] => isFalse (fun h => List.noConfusion h)
  | (k1, v1) :: xs, (k2, v2) :: ys =>
      match decEq k1 k2 with
      | isFalse h => isFalse (fun e => h (Prod.mk.inj (List.cons.inj e).1).1)
      | isTrue hk =>
        match decEqValue v1 v2 with
        | isFalse h => isFalse (fun e => h (Prod.mk.inj (List.cons.inj e).1).2)
        | isTrue hv =>
          match decEqValueFields xs ys with
          | isTrue ht => isTrue (by rw [hk, hv, ht])
          | isFalse h => isFalse (fun e => h (List.cons.inj e).2)

end

instance : DecidableEq Value := decEqValue

/-- Decidable equality for `Except` results (not provided by the library in
this toolchain). -/
instance {ε α : Type} [DecidableEq ε] [DecidableEq α] : DecidableEq (Except ε α) := fun a b =>
  match a, b with
  | .ok x, .ok y =>
      match decEq x y with
      | isTrue h => isTrue (h ▸ rfl)
      | isFalse h => isFalse (fun e => h (Except.ok.inj e))
  | .error x, .error y =>
      match decEq x y with
      | isTrue h => isTrue (h ▸ rfl)
      | isFalse h => isFalse (fun e => h (Except.error.inj e))
  | .ok _, .error _ => isFalse (fun h => Except.noConfusion h)
  | .error _, .ok _ => isFalse (fun h => Except.noConfusion h)

/-- `d.get(k)`: first binding of key `k` in an object's field list (Python
dict keys are unique; lookup takes the first binding). -/
def pyGet (fs : List (String × Value)) (k : String) : Option Value :=
  (fs.find? (fun p => p.1 == k)).map Prod.snd

/-- `d.get(k, default)`. -/
def pyGetD (fs : List (String × Value)) (k : String) (d : Value) : Value :=
  (pyGet fs k).getD d

/-- Python truthiness (`bool(x)`) for the values the gateway handles. -/
def isTruthy : Value → Bool
  | .vnull => false
  | .vbool b => b
  | .vint n => n != 0
  | .vfloat q => q != 0
  | .vstr s => s != ""
  | .vdatetime _ => true
  | .vlist xs => !xs.isEmpty
  | .vobj fs => !fs.isEmpty

/-- Python `a or b`. -/
def pyOr (a b : Value) : Value := if isTruthy a then a else b

/-- Truncation toward zero, as Python `int()` applied to a float. -/
def ratTrunc (q : Rat) : Int := if 0 ≤ q then q.floor else -((-q).floor)

/-- Python `int(x)`: identity on ints, 0/1 on bools, truncation on floats,
digit parsing on strings; anything else raises (`none`). -/
def pyInt : Value → Option Int
  | .vbool b => some (if b then 1 else 0)
  | .vint n => some n
  | .vfloat q => some (ratTrunc q)
  | .vstr s => s.trim.toInt?
  | _ => none

/-- `isinstance(v, (int, float))` — Python bools are ints, so they pass. -/
def isNumber : Value → Bool
  | .vbool _ => true
  | .vint _ => true
  | .vfloat _ => true
  | _ => false

/-- `", ".join(xs)`. -/
def joinComma : List String → String
  | [] => ""
  | [s] => s
  | s :: rest => s ++ ", " ++ joinComma rest

/-- `ALLOWED_QUERY_KEYS` (a Python set; only membership is used). -/
def ALLOWED_QUERY_KEYS : List String :=
  ["sentiment", "symbolmap.NSE", "symbolmap.Company_Name", "impact score"]

/-- `sorted(ALLOWED_QUERY_KEYS)` as used in the unknown-key error message
(code-point order puts "impact score" first and "symbolmap.Company_Name"
before "symbolmap.NSE"). -/
def ALLOWED_KEYS_SORTED : List String :=
  ["impact score", "sentiment", "symbolmap.Company_Name", "symbolmap.NSE"]

/-- The operator whitelist for "impact score" in `_validate_and_normalize_args`. -/
def IMPACT_OPS : List String := ["$gt", "$gte", "$lt", "$lte", "$eq"]

/-- The `sentiment` check of `_validate_and_normalize_args`:
`if "sentiment" in query and query["sentiment"] not in (...)`. -/
def checkSentiment (qfs : List (String × Value)) : Except String Unit :=
  match pyGet qfs "sentiment" with
  | none => .ok ()
  | some v =>
    if v == .vstr "Positive" || v == .vstr "Neutral" || v == .vstr "Negative" then .ok ()
    else .error "sentiment must be one of: Positive, Neutral, Negative."

/-- The body of the `symbolmap.Company_Name` check of
`_validate_and_normalize_args`, applied to the supplied sub-object:
`set(sub.keys())` must equal the two-element set of `$regex` and `$options`
(set equality, written out as mutual containment), `$regex` must be a
non-empty string, and `$options` must equal `"i"`. -/
def checkCompanyNameValue (sub : Value) : Except String Unit :=
  match sub with
  | .vobj sfs =>
    if !((sfs.map Prod.fst).all (fun k => k == "$regex" || k == "$options") &&
          (sfs.map Prod.fst).contains "$regex" &&
          (sfs.map Prod.fst).contains "$options") then
      .error "symbolmap.Company_Name must have keys: $regex and $options."
    else
      match pyGet sfs "$regex" with
      | some (.vstr s) =>
        if s == "" then
          .error "symbolmap.Company_Name.$regex must be a non-empty string."
        else if pyGetD sfs "$options" .vnull == .vstr "i" then .ok ()
        else .error "symbolmap.Company_Name.$options must be 'i'."
      | _ => .error "symbolmap.Company_Name.$regex must be a non-empty string."
  | _ => .error "symbolmap.Company_Name must be an object."

/-- The `symbolmap.Company_Name` check of `_validate_and_normalize_args`:
runs only when the key is present. -/
def checkCompanyName (qfs : List (String × Value)) : Except String Unit :=
  match pyGet qfs "symbolmap.Company_Name" with
  | none => .ok ()
  | some sub => checkCompanyNameValue sub

/-- The "impact score" check of `_validate_and_normalize_args`. -/
def checkImpactScore (qfs : List (String × Value)) : Except String Unit :=
  match pyGet qfs "impact score" with
  | none => .ok ()
  | some cmp =>
    match cmp with
    | .vobj cfs =>
      if cfs.isEmpty then
        .error "impact score must be an object with comparison operator(s)."
      else if (cfs.map Prod.fst).any (fun op => !IMPACT_OPS.contains op) then
        .error "impact score uses only: $gt, $gte, $lt, $lte, $eq."
      else if !((cfs.map Prod.snd).all isNumber) then
        .error "impact score operator values must be numbers."
      else .ok ()
    | _ => .error "impact score must be an object with comparison operator(s)."

/-- The `limit` handling of `_validate_and_normalize_args`:
`limit = args.get("limit", 10)`, coercion via `int()`, then a 1..50 range
check that rejects (does not clamp) out-of-range values. -/
def checkLimit (fs : List (String × Value)) : Except String Int :=
  match pyInt (pyGetD fs "limit" (.vint 10)) with
  | none => .error "'limit' must be an integer between 1 and 50."
  | some n =>
    if 1 ≤ n ∧ n ≤ 50 then .ok n
    else .error "'limit' must be between 1 and 50."

/-- `_validate_and_normalize_args(args) -> (query, limit)`, raising
`ValidationError` (the `.error` constructor) exactly where the source does. -/
def validateAndNormalizeArgs (args : Value) :
    Except String (List (String × Value) × Int) :=
  match args with
  | .vobj fs =>
    if !((fs.map Prod.fst).contains "query") then .error "Field 'query' is required."
    else
      match pyOr (pyGetD fs "query" .vnull) (.vobj []) with
      | .vobj qfs =>
        if !((qfs.map Prod.fst).filter (fun k => !ALLOWED_QUERY_KEYS.contains k)).isEmpty then
          .error ("Invalid query keys: " ++
            joinComma ((qfs.map Prod.fst).filter (fun k => !ALLOWED_QUERY_KEYS.contains k)) ++
            ". Allowed: " ++ joinComma ALLOWED_KEYS_SORTED)
        else
          match checkSentiment qfs with
          | .error e => .error e
          | .ok () =>
            match checkCompanyName qfs with
            | .error e => .error e
            | .ok () =>
              match checkImpactScore qfs with
              | .error e => .error e
              | .ok () =>
                match checkLimit fs with
                | .error e => .error e
                | .ok limit => .ok (qfs, limit)
      | _ => .error "'query' must be an object."
  | _ => .error "Arguments must be an object."

/-- The store query `_fetch_from_mongo` builds:
`coll.find(query, projection).sort("dt_tm", DESCENDING).limit(limit)`. -/
structure StoreQuery where
  filter : List (String × Value)
  projection : List (String × Int)
  sortField : String
  sortDescending : Bool
  limit : Int
  deriving DecidableEq

/-- The fixed projection of `_fetch_from_mongo`. -/
def PROJECTION : List (String × Int) :=
  [("_id", 0), ("symbolmap.Company_Name", 1), ("symbolmap.NSE", 1), ("dt_tm", 1),
   ("short summary", 1), ("impact", 1), ("impact score", 1), ("sentiment", 1),
   ("news link", 1)]

/-- The query `_fetch_from_mongo` sends to the store for a validated
`(query, limit)` pair. -/
def fetchFromMongoQuery (query : List (String × Value)) (limit : Int) : StoreQuery :=
  { filter := query, projection := PROJECTION, sortField := "dt_tm",
    sortDescending := true, limit := limit }

/-- What the external store returns: documents, or a `PyMongoError` message
(re-raised by `_fetch_from_mongo` as `MongoQueryError("MongoDB error: ...")`). -/
inductive StoreResult where
  | ok : List (List (String × Value)) → StoreResult
  | fail : String → StoreResult
  deriving DecidableEq

mutual

/-- Fallback stringification `str(x)` used by `_to_iso` for container
values; the exact text is not observed by any theorem below. -/
def pyStrFallback : Value → String
  | .vnull => "None"
  | .vbool b => if b then "True" else "False"
  | .vint n => toString n
  | .vfloat q => toString q
  | .vstr s => s
  | .vdatetime iso => iso
  | .vlist xs => "[" ++ pyStrList xs ++ "]"
  | .vobj fs => "\x7b" ++ pyStrFields fs ++ "\x7d"

def pyStrList : List Value → String
  | [] => ""
  | [x] => pyStrFallback x
  | x :: rest => pyStrFallback x ++ ", " ++ pyStrList rest

def pyStrFields : List (String × Value) → String
  | [] => ""
  | [(k, v)] => k ++ ": " ++ pyStrFallback v
  | (k, v) :: rest => k ++ ": " ++ pyStrFallback v ++ ", " ++ pyStrFields rest

end

/-- `_to_iso`: datetimes become their ISO string; None, str, int, float and
bool pass through; anything else is stringified. -/
def toIso : Value → Value
  | .vdatetime iso => .vstr iso
  | .vnull => .vnull
  | .vstr s => .vstr s
  | .vint n => .vint n
  | .vfloat q => .vfloat q
  | .vbool b => .vbool b
  | v => .vstr (pyStrFallback v)

/-- The flat output record `_normalize_docs` builds per document. -/
structure NormalizedItem where
  company : Value
  symbol : Value
  dt : Value
  summary : Value
  impact : Value
  score : Value
  sentiment : Value
  link : Value
  deriving DecidableEq

/-- One iteration of `_normalize_docs`.  `symbolmap = d.get("symbolmap") or {}`
followed by `symbolmap.get(...)` raises `AttributeError` when `symbolmap` is a
truthy non-dict; that exception is the `.error` branch (caught further up by
the generic handler of `_call_tool_request`). -/
def normalizeDoc (d : List (String × Value)) : Except String NormalizedItem :=
  match pyOr (pyGetD d "symbolmap" .vnull) (.vobj []) with
  | .vobj sm =>
    .ok {
      company := pyOr (pyGetD sm "Company_Name" (.vstr "")) (.vstr ""),
      symbol := pyOr (pyGetD sm "NSE" (.vstr "")) (.vstr ""),
      dt := toIso (pyGetD d "dt_tm" .vnull),
      summary := pyOr (pyGetD d "short summary" (.vstr "")) (.vstr ""),
      impact := pyGetD d "impact" .vnull,
      score := pyGetD d "impact score" .vnull,
      sentiment := pyGetD d "sentiment" .vnull,
      link := pyOr (pyGetD d "news link" (.vstr "")) (.vstr "") }
  | _ => .error "AttributeError"

/-- The normalization of a document with no fields: every defaulted slot.
Used to state concrete instances compactly. -/
def baseItem : NormalizedItem :=
  { company := .vstr "", symbol := .vstr "", dt := .vnull, summary := .vstr "",
    impact := .vnull, score := .vnull, sentiment := .vnull, link := .vstr "" }

/-- `_normalize_docs`, order-preserving over the store's documents. -/
def normalizeDocs : List (List (String × Value)) → Except String (List NormalizedItem)
  | [] => .ok []
  | d :: rest =>
    match normalizeDoc d with
    | .error e => .error e
    | .ok item =>
      match normalizeDocs rest with
      | .error e => .error e
      | .ok tl => .ok (item :: tl)

/-- The static widget descriptor (`WIDGET`); `html_path` is a filesystem
concern outside this embedding. -/
structure NewsWidget where
  identifier : String
  title : String
  template_uri : String
  invoking : String
  invoked : String
  deriving DecidableEq

def WIDGET : NewsWidget :=
  { identifier := "news-impact", title := "News Impact Carousel",
    template_uri := "ui://widget/news-impact.html",
    invoking := "Fetching News Impact…", invoked := "News Impact ready" }

/-- `_tool_descriptor_meta()`: the static tool/capability metadata. -/
structure ToolDescriptorMeta where
  outputTemplate : String
  invoking : String
  invoked : String
  widgetAccessible : Bool
  readOnlyHint : Bool
  destructiveHint : Bool
  openWorldHint : Bool
  deriving DecidableEq

def toolDescriptorMeta : ToolDescriptorMeta :=
  { outputTemplate := WIDGET.template_uri, invoking := WIDGET.invoking,
    invoked := WIDGET.invoked, widgetAccessible := false,
    readOnlyHint := true, destructiveHint := false, openWorldHint := false }

/-- The `result_meta` block attached only to non-empty results in
`_call_tool_request`. -/
structure ResultMeta where
  widgetAccessible : Bool
  resultCanProduceWidget : Bool
  outputTemplate : String
  invoking : String
  invoked : String
  deriving DecidableEq

def resultMeta : ResultMeta :=
  { widgetAccessible := true, resultCanProduceWidget := true,
    outputTemplate := WIDGET.template_uri, invoking := WIDGET.invoking,
    invoked := WIDGET.invoked }

/-- The `CallToolResult` shape the handler returns: text content, error flag,
optional `structuredContent.items`, optional `_meta`. -/
structure CallToolResult where
  text : String
  isError : Bool
  structuredItems : Option (List NormalizedItem)
  meta : Option ResultMeta
  deriving DecidableEq

/-- `_call_tool_request`, with the document store passed in as a function
from the built store query to its result. -/
def callToolRequest (toolName : String) (rawArgs : Value)
    (store : StoreQuery → StoreResult) : CallToolResult :=
  let args := pyOr rawArgs (.vobj [])
  if toolName != "news-impact" then
    { text := "Unknown tool.", isError := true, structuredItems := none, meta := none }
  else
    match validateAndNormalizeArgs args with
    | .error msg =>
      { text := "Validation error: " ++ msg, isError := true,
        structuredItems := none, meta := none }
    | .ok (query, limit) =>
      match store (fetchFromMongoQuery query limit) with
      | .fail msg =>
        { text := "Database error: MongoDB error: " ++ msg, isError := true,
          structuredItems := none, meta := none }
      | .ok docs =>
        match normalizeDocs docs with
        | .error msg =>
          { text := "Unexpected error: " ++ msg, isError := true,
            structuredItems := none, meta := none }
        | .ok items =>
          if items.isEmpty then
            { text := "No news matched your query. Widget not rendered.",
              isError := false, structuredItems := some [], meta := none }
          else
            { text := "Fetched " ++ toString items.length ++ " item(s) for News Impact.",
              isError := false, structuredItems := some items, meta := some resultMeta }

/-- The "impact score" fragment of the advertised `NEWS_QUERY_SCHEMA`: an
object with `minProperties` 1, `maxProperties` 2, only the five comparison
operators as properties, each of JSON type number, and
`additionalProperties: false`. -/
def impactScoreSchemaAccepts : Value → Bool
  | .vobj fs =>
      decide (1 ≤ fs.length) && decide (fs.length ≤ 2) &&
      (fs.map Prod.fst).all (fun k => IMPACT_OPS.contains k) &&
      (fs.map Prod.snd).all (fun v =>
        match v with
        | .vint _ => true
        | .vfloat _ => true
        | _ => false)
  | _ => false

/-- The spec's wording for a well-formed `companyNameMatch` value, written
independently of the validator for comparison: "an object with exactly two
keys: a non-empty pattern string and a case-sensitivity flag that must equal
'insensitive' (the literal `i`)". -/
def companyNameMatchSpec : Value → Bool
  | .vobj sfs =>
      ((sfs.map Prod.fst).all (fun k => k == "$regex" || k == "$options") &&
        (sfs.map Prod.fst).contains "$regex" &&
        (sfs.map Prod.fst).contains "$options") &&
      (match pyGet sfs "$regex" with
       | some (.vstr s) => !(s == "")
       | _ => false) &&
      (pyGetD sfs "$options" .vnull == .vstr "i")
  | _ => false

/-! ## Supporting lemmas -/

/-- A key that `dict.get` finds is a member of the dict's keys. -/
theorem pyGet_some_contains {fs : List (String × Value)} {k : String} {v : Value}
    (h : pyGet fs k = some v) : (fs.map Prod.fst).contains k = true := by
  induction fs with
  | nil => simp [pyGet] at h
  | cons p rest ih =>
    simp only [pyGet, List.find?] at h ih
    cases hb : (p.1 == k) with
    | true =>
      have hk : p.1 = k := by simpa using hb
      simp [List.map_cons, List.contains_cons, hk]
    | false =>
      rw [hb] at h
      have hc := ih h
      simp only [List.map_cons, List.contains_cons, hc, Bool.or_true]

/-- A limit that survives `checkLimit` lies within the inclusive bounds. -/
theorem checkLimit_ok_range (fs : List (String × Value)) (n : Int)
    (h : checkLimit fs = .ok n) : 1 ≤ n ∧ n ≤ 50 := by
  unfold checkLimit at h
  split at h
  · exact Except.noConfusion h
  · split at h
    · rename_i hr
      cases h
      exact hr
    · exact Except.noConfusion h

/-- A successful validation's limit is exactly what `checkLimit` produced on
the argument object. -/
theorem validate_ok_checkLimit (args : Value) (query : List (String × Value)) (limit : Int)
    (h : validateAndNormalizeArgs args = .ok (query, limit)) :
    ∃ fs, args = .vobj fs ∧ checkLimit fs = .ok limit := by
  unfold validateAndNormalizeArgs at h
  split at h
  · rename_i fs
    refine ⟨fs, rfl, ?_⟩
    repeat' split at h
    all_goals first
      | exact Except.noConfusion h
      | (cases h; assumption)
  · exact Except.noConfusion h

/-- `_normalize_docs` yields one item per document. -/
theorem normalizeDocs_length :
    ∀ (docs : List (List (String × Value))) (items : List NormalizedItem),
      normalizeDocs docs = .ok items → items.length = docs.length := by
  intro docs
  induction docs with
  | nil => intro items h; cases h; rfl
  | cons d rest ih =>
    intro items h
    unfold normalizeDocs at h
    split at h
    · exact Except.noConfusion h
    · split at h
      · exact Except.noConfusion h
      · rename_i tl htl
        cases h
        simp [ih tl htl]

/-- `_normalize_docs` is order-preserving: the i-th output item is the
normalization of the i-th input document. -/
theorem normalizeDocs_get :
    ∀ (docs : List (List (String × Value))) (items : List NormalizedItem),
      normalizeDocs docs = .ok items →
      ∀ (i : Nat) (h1 : i < docs.length) (h2 : i < items.length),
        normalizeDoc (docs.get ⟨i, h1⟩) = .ok (items.get ⟨i, h2⟩) := by
  intro docs
  induction docs with
  | nil => intro items h i h1 h2; exact absurd h1 (by simp)
  | cons d rest ih =>
    intro items h i h1 h2
    unfold normalizeDocs at h
    split at h
    · exact Except.noConfusion h
    · rename_i item hitem
      split at h
      · exact Except.noConfusion h
      · rename_i tl htl
        cases h
        cases i with
        | zero => exact hitem
        | succ j =>
          exact ih tl htl j (Nat.lt_of_succ_lt_succ h1) (Nat.lt_of_succ_lt_succ h2)

/-- The validator's `symbolmap.Company_Name` check passes exactly on the
values the spec's wording admits. -/
theorem checkCompanyNameValue_ok_iff (sub : Value) :
    checkCompanyNameValue sub = .ok () ↔ companyNameMatchSpec sub = true := by
  cases sub with
  | vobj sfs =>
    unfold checkCompanyNameValue companyNameMatchSpec
    cases hA : ((sfs.map Prod.fst).all (fun k => k == "$regex" || k == "$options") &&
        (sfs.map Prod.fst).contains "$regex" && (sfs.map Prod.fst).contains "$options") with
    | false =>
      simp only [hA]
      simp
    | true =>
      simp only [hA]
      cases hg : pyGet sfs "$regex" with
      | none => simp
      | some w =>
        cases w with
        | vstr s =>
          cases hs : (s == "") with
          | true =>
            have hs2 : s = "" := by simpa using hs
            simp [hs2]
          | false =>
            have hs2 : ¬(s = "") := by simpa using hs
            cases ho : (pyGetD sfs "$options" .vnull == .vstr "i") with
            | true =>
              have ho2 : pyGetD sfs "$options" .vnull = .vstr "i" := by simpa using ho
              simp [hs2, ho2]
            | false =>
              have ho2 : ¬(pyGetD sfs "$options" .vnull = .vstr "i") := by simpa using ho
              simp [hs2, ho2]
        | vnull => simp
        | vbool b => simp
        | vint n => simp
        | vfloat q => simp
        | vdatetime t => simp
        | vlist xs => simp
        | vobj fs2 => simp
  | vnull => simp [checkCompanyNameValue, companyNameMatchSpec]
  | vbool b => simp [checkCompanyNameValue, companyNameMatchSpec]
  | vint n => simp [checkCompanyNameValue, companyNameMatchSpec]
  | vfloat q => simp [checkCompanyNameValue, companyNameMatchSpec]
  | vstr s => simp [checkCompanyNameValue, companyNameMatchSpec]
  | vdatetime s => simp [checkCompanyNameValue, companyNameMatchSpec]
  | vlist xs => simp [checkCompanyNameValue, companyNameMatchSpec]

/-- Validation of a filter holding only `symbolmap.Company_Name` reduces to
the company-name check (sentiment, impact-score and limit checks pass
trivially; the default limit is 10). -/
theorem validate_single_company (v : Value) :
    validateAndNormalizeArgs (.vobj [("query", .vobj [("symbolmap.Company_Name", v)])]) =
      (match checkCompanyNameValue v with
       | .error e => .error e
       | .ok _ => .ok ([("symbolmap.Company_Name", v)], 10)) := rfl

/-- With a valid request, a store answer, and successful normalization, the
handler's response depends only on whether the normalized item list is
empty. -/
theorem callToolRequest_ok_reduce (args : Value) (store : StoreQuery → StoreResult)
    (query : List (String × Value)) (limit : Int)
    (docs : List (List (String × Value))) (items : List NormalizedItem)
    (hv : validateAndNormalizeArgs (pyOr args (.vobj [])) = .ok (query, limit))
    (hs : store (fetchFromMongoQuery query limit) = .ok docs)
    (hn : normalizeDocs docs = .ok items) :
    callToolRequest "news-impact" args store =
      (if items.isEmpty then
        { text := "No news matched your query. Widget not rendered.",
          isError := false, structuredItems := some [], meta := none }
      else
        { text := "Fetched " ++ toString items.length ++ " item(s) for News Impact.",
          isError := false, structuredItems := some items, meta := some resultMeta }) := by
  unfold callToolRequest
  simp only [bne_self_eq_false, Bool.false_eq_true, if_false, hv, hs, hn]

/-- Validation of an argument object whose (present, falsy) `query` value was
replaced by the empty filter reduces to the limit check alone. -/
theorem validate_empty_query_reduce (fs : List (String × Value))
    (hin : (fs.map Prod.fst).contains "query" = true)
    (hq2 : pyOr (pyGetD fs "query" .vnull) (.vobj []) = .vobj []) :
    validateAndNormalizeArgs (.vobj fs) =
      (match checkLimit fs with
       | .error e => .error e
       | .ok limit => .ok ([], limit)) := by
  simp only [validateAndNormalizeArgs]
  rw [hin]
  simp only [Bool.not_true, Bool.false_eq_true, if_false]
  rw [hq2]
  rfl

/-! ## The claims -/

/-- Claim C1: the response is selected solely by the count of normalized
items.  Whenever the store returns zero documents the handler answers with
the no-match text, an empty item collection, and no result metadata (the
render-enable signal stays off); whenever it returns n ≥ 1 documents the
handler answers with exactly n normalized items in the store's order and
metadata whose `openai/widgetAccessible` flag is on.  The hypothesis on
`normalizeDocs` states that no document makes `_normalize_docs` raise, which
holds for every document shape the store's projection can return. -/
theorem c1_two_state_response (args : Value) (store : StoreQuery → StoreResult)
    (query : List (String × Value)) (limit : Int)
    (docs : List (List (String × Value))) (items : List NormalizedItem)
    (hv : validateAndNormalizeArgs (pyOr args (.vobj [])) = .ok (query, limit))
    (hs : store (fetchFromMongoQuery query limit) = .ok docs)
    (hn : normalizeDocs docs = .ok items) :
    (docs = [] →
      callToolRequest "news-impact" args store =
        { text := "No news matched your query. Widget not rendered.",
          isError := false, structuredItems := some [], meta := none }) ∧
    (docs ≠ [] →
      callToolRequest "news-impact" args store =
        { text := "Fetched " ++ toString items.length ++ " item(s) for News Impact.",
          isError := false, structuredItems := some items, meta := some resultMeta } ∧
      items.length = docs.length ∧
      resultMeta.widgetAccessible = true ∧
      ∀ (i : Nat) (h1 : i < docs.length) (h2 : i < items.length),
        normalizeDoc (docs.get ⟨i, h1⟩) = .ok (items.get ⟨i, h2⟩)) := by
  have hred := callToolRequest_ok_reduce args store query limit docs items hv hs hn
  have hlen := normalizeDocs_length docs items hn
  constructor
  · intro hd
    subst hd
    have hitems : items = [] := by
      cases items with
      | nil => rfl
      | cons a l => simp at hlen
    subst hitems
    simpa using hred
  · intro hd
    have hne : items ≠ [] := by
      intro he
      subst he
      exact hd (List.length_eq_zero.mp hlen.symm)
    have hie : items.isEmpty = false := by
      cases items with
      | nil => exact absurd rfl hne
      | cons a l => rfl
    rw [hie] at hred
    refine ⟨?_, hlen, rfl, normalizeDocs_get docs items hn⟩
    simpa using hred

/-- Witness for C1: a store holding one (empty) document produces a Ready
response with that one normalized item and the metadata flag on. -/
theorem c1_witness :
    callToolRequest "news-impact" (.vobj [("query", .vobj [])]) (fun _ => .ok [[]]) =
      { text := "Fetched 1 item(s) for News Impact.", isError := false,
        structuredItems := some [baseItem], meta := some resultMeta } ∧
    ([baseItem] : List NormalizedItem).length = ([[]] : List (List (String × Value))).length ∧
    resultMeta.widgetAccessible = true ∧
    ∀ (i : Nat) (h1 : i < ([[]] : List (List (String × Value))).length)
      (h2 : i < ([baseItem] : List NormalizedItem).length),
      normalizeDoc (([[]] : List (List (String × Value))).get ⟨i, h1⟩) =
        .ok (([baseItem] : List NormalizedItem).get ⟨i, h2⟩) :=
  (c1_two_state_response (.vobj [("query", .vobj [])]) (fun _ => .ok [[]]) [] 10 [[]]
      [baseItem] (by decide) rfl (by decide)).2 (by decide)

/-- Counterexample for C2: a limit of 0 makes validation fail and the call
error out, instead of being clamped into [1,50]. -/
theorem c2_counterexample :
    validateAndNormalizeArgs (.vobj [("query", .vobj []), ("limit", .vint 0)]) =
      .error "'limit' must be between 1 and 50." ∧
    (callToolRequest "news-impact" (.vobj [("query", .vobj []), ("limit", .vint 0)])
        (fun _ => .ok [])).isError = true := by decide

/-- Claim C2 as amended: an out-of-range limit is rejected with a
ValidationError, not clamped — every successfully validated limit already
lies in [1,50], and an argument object whose coerced limit falls outside
[1,50] never validates. -/
theorem c2_limit_rejected_not_clamped :
    (∀ (args : Value) (query : List (String × Value)) (limit : Int),
      validateAndNormalizeArgs args = .ok (query, limit) → 1 ≤ limit ∧ limit ≤ 50) ∧
    (∀ (fs : List (String × Value)) (n : Int),
      pyInt (pyGetD fs "limit" (.vint 10)) = some n → (n < 1 ∨ 50 < n) →
      ∀ (query : List (String × Value)) (limit : Int),
        validateAndNormalizeArgs (.vobj fs) ≠ .ok (query, limit)) := by
  constructor
  · intro args query limit h
    obtain ⟨fs, _, hcl⟩ := validate_ok_checkLimit args query limit h
    exact checkLimit_ok_range fs limit hcl
  · intro fs n hn hout query limit h
    obtain ⟨fs2, hfs, hcl⟩ := validate_ok_checkLimit _ query limit h
    injection hfs with hfs2
    subst hfs2
    unfold checkLimit at hcl
    rw [hn] at hcl
    have hcl2 : (if 1 ≤ n ∧ n ≤ 50 then (Except.ok n : Except String Int)
        else Except.error "'limit' must be between 1 and 50.") = Except.ok limit := hcl
    rw [if_neg] at hcl2
    · exact Except.noConfusion hcl2
    · rintro ⟨h1, h2⟩
      rcases hout with h3 | h3 <;> omega

/-- Witness for C2 (amended), at the default limit of 10. -/
theorem c2_witness : 1 ≤ (10:Int) ∧ (10:Int) ≤ 50 :=
  c2_limit_rejected_not_clamped.1 (.vobj [("query", .vobj [])]) [] 10 (by decide)

/-- Claim C3: any filter with a key outside the four-key whitelist is
rejected with a message naming the unknown keys and listing the allowed set,
and the result of the call does not depend on the store (the store is never
queried: validation fails before `_fetch_from_mongo` runs). -/
theorem c3_unknown_keys_rejected (fs qfs : List (String × Value))
    (hin : (fs.map Prod.fst).contains "query" = true)
    (hq : pyOr (pyGetD fs "query" .vnull) (.vobj []) = .vobj qfs)
    (hunk : (qfs.map Prod.fst).filter (fun k => !ALLOWED_QUERY_KEYS.contains k) ≠ []) :
    validateAndNormalizeArgs (.vobj fs) =
      .error ("Invalid query keys: " ++
        joinComma ((qfs.map Prod.fst).filter (fun k => !ALLOWED_QUERY_KEYS.contains k)) ++
        ". Allowed: " ++ joinComma ALLOWED_KEYS_SORTED) ∧
    ∀ store : StoreQuery → StoreResult,
      callToolRequest "news-impact" (.vobj fs) store =
        { text := "Validation error: " ++
            ("Invalid query keys: " ++
              joinComma ((qfs.map Prod.fst).filter (fun k => !ALLOWED_QUERY_KEYS.contains k)) ++
              ". Allowed: " ++ joinComma ALLOWED_KEYS_SORTED),
          isError := true, structuredItems := none, meta := none } := by
  have hie : ((qfs.map Prod.fst).filter (fun k => !ALLOWED_QUERY_KEYS.contains k)).isEmpty = false := by
    cases hu : (qfs.map Prod.fst).filter (fun k => !ALLOWED_QUERY_KEYS.contains k) with
    | nil => exact absurd hu hunk
    | cons a l => rfl
  have hmain : validateAndNormalizeArgs (.vobj fs) =
      .error ("Invalid query keys: " ++
        joinComma ((qfs.map Prod.fst).filter (fun k => !ALLOWED_QUERY_KEYS.contains k)) ++
        ". Allowed: " ++ joinComma ALLOWED_KEYS_SORTED) := by
    simp only [validateAndNormalizeArgs]
    rw [hin]
    simp only [Bool.not_true, Bool.false_eq_true, if_false]
    rw [hq]
    simp only [hie, Bool.not_false, if_true]
  refine ⟨hmain, ?_⟩
  intro store
  have hfs : isTruthy (.vobj fs) = true := by
    cases fs with
    | nil => simp [List.contains] at hin
    | cons p l => rfl
  unfold callToolRequest
  simp only [bne_self_eq_false, Bool.false_eq_true, if_false, pyOr, hfs, if_true, hmain]

/-- Witness for C3, at the spec's Scenario D input. -/
theorem c3_witness :
    validateAndNormalizeArgs (.vobj [("query", .vobj [("unknownField", .vstr "x")])]) =
      .error "Invalid query keys: unknownField. Allowed: impact score, sentiment, symbolmap.Company_Name, symbolmap.NSE" ∧
    ∀ store : StoreQuery → StoreResult,
      callToolRequest "news-impact" (.vobj [("query", .vobj [("unknownField", .vstr "x")])]) store =
        { text := "Validation error: Invalid query keys: unknownField. Allowed: impact score, sentiment, symbolmap.Company_Name, symbolmap.NSE",
          isError := true, structuredItems := none, meta := none } :=
  c3_unknown_keys_rejected [("query", .vobj [("unknownField", .vstr "x")])]
    [("unknownField", .vstr "x")] (by decide) (by decide) (by decide)

/-- Counterexample for C4: an empty-string sentiment normalizes to the empty
string and an absent sentiment to null — neither becomes "Neutral". -/
theorem c4_counterexample :
    normalizeDoc [("sentiment", .vstr "")] = .ok { baseItem with sentiment := .vstr "" } ∧
    Value.vstr "" ≠ Value.vstr "Neutral" ∧
    normalizeDoc [] = .ok baseItem ∧
    Value.vnull ≠ Value.vstr "Neutral" := by decide

/-- Claim C4 as amended: normalization passes the sentiment field through
unchanged — null when absent, the empty string when empty; no "Neutral"
default is applied. -/
theorem c4_sentiment_passthrough (d : List (String × Value)) (item : NormalizedItem)
    (h : normalizeDoc d = .ok item) :
    item.sentiment = pyGetD d "sentiment" .vnull := by
  unfold normalizeDoc at h
  split at h
  · cases h
    rfl
  · exact Except.noConfusion h

/-- Witness for C4 (amended), at a document with an empty sentiment. -/
theorem c4_witness :
    ({ baseItem with sentiment := Value.vstr "" } : NormalizedItem).sentiment =
      pyGetD [("sentiment", Value.vstr "")] "sentiment" Value.vnull :=
  c4_sentiment_passthrough [("sentiment", .vstr "")] _ (by decide)

/-- Claim C5: the store query built by `_fetch_from_mongo` sorts on `dt_tm`
descending for every filter and limit; no caller input reaches the sort. -/
theorem c5_sort_fixed (query : List (String × Value)) (limit : Int) :
    (fetchFromMongoQuery query limit).sortField = "dt_tm" ∧
    (fetchFromMongoQuery query limit).sortDescending = true := ⟨rfl, rfl⟩

/-- Claim C6 (code bug): the runtime validator accepts an "impact score"
object with three operator keys, and one whose operator value is a boolean,
though the advertised `NEWS_QUERY_SCHEMA` (maxProperties 2, type number)
rejects both. -/
theorem c6_impact_score_maxkeys_unenforced :
    validateAndNormalizeArgs
        (.vobj [("query", .vobj [("impact score",
          .vobj [("$gt", .vint 1), ("$lt", .vint 2), ("$eq", .vint 3)])])]) =
      .ok ([("impact score", .vobj [("$gt", .vint 1), ("$lt", .vint 2), ("$eq", .vint 3)])], 10) ∧
    impactScoreSchemaAccepts (.vobj [("$gt", .vint 1), ("$lt", .vint 2), ("$eq", .vint 3)]) = false ∧
    validateAndNormalizeArgs
        (.vobj [("query", .vobj [("impact score", .vobj [("$gt", .vbool true)])])]) =
      .ok ([("impact score", .vobj [("$gt", .vbool true)])], 10) ∧
    impactScoreSchemaAccepts (.vobj [("$gt", .vbool true)]) = false := by decide

/-- Claim C7: validation of a filter carrying `symbolmap.Company_Name`
succeeds exactly when the value is an object with precisely the keys
`$regex` (a non-empty string) and `$options` (equal to "i"). -/
theorem c7_companyNameMatch_iff (v : Value) :
    (∃ (q : List (String × Value)) (l : Int),
      validateAndNormalizeArgs
        (.vobj [("query", .vobj [("symbolmap.Company_Name", v)])]) = .ok (q, l)) ↔
      companyNameMatchSpec v = true := by
  rw [validate_single_company]
  constructor
  · rintro ⟨q, l, h⟩
    cases hc : checkCompanyNameValue v with
    | error e =>
      rw [hc] at h
      exact Except.noConfusion h
    | ok u =>
      cases u
      exact (checkCompanyNameValue_ok_iff v).mp hc
  · intro hspec
    refine ⟨[("symbolmap.Company_Name", v)], 10, ?_⟩
    rw [(checkCompanyNameValue_ok_iff v).mpr hspec]

/-- Witness for C7, at a well-formed pattern object. -/
theorem c7_witness :
    companyNameMatchSpec (.vobj [("$regex", .vstr "rel"), ("$options", .vstr "i")]) = true :=
  (c7_companyNameMatch_iff (.vobj [("$regex", .vstr "rel"), ("$options", .vstr "i")])).mp
    ⟨[("symbolmap.Company_Name", .vobj [("$regex", .vstr "rel"), ("$options", .vstr "i")])], 10,
      by decide⟩

/-- Claim C8: the static tool descriptor always advertises
`openai/widgetAccessible = False`, and a call's result carries metadata only
in the Ready branch: whenever the handler's result has metadata, that
metadata is exactly `result_meta` with the flag on, the result is not an
error, and it carries a non-empty item list. -/
theorem c8_widget_flag_only_on_nonempty_results :
    toolDescriptorMeta.widgetAccessible = false ∧
    ∀ (toolName : String) (args : Value) (store : StoreQuery → StoreResult) (m : ResultMeta),
      (callToolRequest toolName args store).meta = some m →
        m = resultMeta ∧ m.widgetAccessible = true ∧
        (callToolRequest toolName args store).isError = false ∧
        ∃ items, (callToolRequest toolName args store).structuredItems = some items ∧
          items ≠ [] := by
  refine ⟨rfl, ?_⟩
  intro toolName args store m hm
  revert hm
  simp only [callToolRequest]
  split
  · intro hm; exact Option.noConfusion hm
  · split
    · intro hm; exact Option.noConfusion hm
    · split
      · intro hm; exact Option.noConfusion hm
      · split
        · intro hm; exact Option.noConfusion hm
        · split
          · intro hm; exact Option.noConfusion hm
          · rename_i items heqn hni
            intro hm
            injection hm with hm2
            subst hm2
            refine ⟨rfl, rfl, rfl, items, rfl, ?_⟩
            intro he
            rw [he] at hni
            exact hni rfl

/-- Witness for C8, at a call that produced one item. -/
theorem c8_witness :
    resultMeta = resultMeta ∧ resultMeta.widgetAccessible = true ∧
    (callToolRequest "news-impact" (.vobj [("query", .vobj [])]) (fun _ => .ok [[]])).isError = false ∧
    ∃ items,
      (callToolRequest "news-impact" (.vobj [("query", .vobj [])])
        (fun _ => .ok [[]])).structuredItems = some items ∧ items ≠ [] :=
  c8_widget_flag_only_on_nonempty_results.2 "news-impact" (.vobj [("query", .vobj [])])
    (fun _ => .ok [[]]) resultMeta (by decide)

/-- Counterexample for C9: a document whose impact score is 15 normalizes
with score 15 — nothing clamps it to the claimed upper bound 10. -/
theorem c9_counterexample :
    normalizeDoc [("impact score", .vint 15)] = .ok { baseItem with score := .vint 15 } ∧
    Value.vint 15 ≠ Value.vint 10 := by decide

/-- Claim C9 as amended: normalization passes the impact score through
unchanged (null when absent); no [0,10] clamping is applied. -/
theorem c9_score_passthrough (d : List (String × Value)) (item : NormalizedItem)
    (h : normalizeDoc d = .ok item) :
    item.score = pyGetD d "impact score" .vnull := by
  unfold normalizeDoc at h
  split at h
  · cases h
    rfl
  · exact Except.noConfusion h

/-- Witness for C9 (amended), at an out-of-range numeric score. -/
theorem c9_witness :
    ({ baseItem with score := Value.vint 15 } : NormalizedItem).score =
      pyGetD [("impact score", Value.vint 15)] "impact score" Value.vnull :=
  c9_score_passthrough [("impact score", .vint 15)] _ (by decide)

/-- Claim C10: an argument object whose `query` key is bound to any falsy
value (None, False, 0, "", an empty collection) validates with the empty
filter — the built store query then filters on nothing, matching all
documents — rather than being rejected as a non-object. -/
theorem c10_falsy_query_accepted (fs : List (String × Value)) (v : Value) (n : Int)
    (hq : pyGet fs "query" = some v)
    (hf : isTruthy v = false)
    (hl : pyInt (pyGetD fs "limit" (.vint 10)) = some n)
    (h1 : 1 ≤ n) (h2 : n ≤ 50) :
    validateAndNormalizeArgs (.vobj fs) = .ok ([], n) ∧
    (fetchFromMongoQuery [] n).filter = [] := by
  refine ⟨?_, rfl⟩
  have hq2 : pyOr (pyGetD fs "query" .vnull) (.vobj []) = .vobj [] := by
    unfold pyGetD pyOr
    rw [hq]
    simp [hf]
  have hcl : checkLimit fs = .ok n := by
    unfold checkLimit
    rw [hl]
    exact if_pos ⟨h1, h2⟩
  rw [validate_empty_query_reduce fs (pyGet_some_contains hq) hq2, hcl]

/-- Witness for C10, at `query = None` with the default limit. -/
theorem c10_witness :
    validateAndNormalizeArgs (.vobj [("query", .vnull)]) = .ok ([], 10) ∧
    (fetchFromMongoQuery [] 10).filter = [] :=
  c10_falsy_query_accepted [("query", .vnull)] .vnull 10 (by decide) (by decide) (by decide)
    (by decide) (by decide)

end NewsMcp
